import Mathlib

/-!
Verification of the scoring and ranking engine of the SEO keyword-research
agent (`src/agents/keyword_scorer.py`).

The engine is embedded shallowly: Python dictionaries holding optional metric
fields become structures of `Option`-typed fields (`dict.get(k, d)` becomes
`Option.getD`), Python floats become real numbers, `round(x, 2)` becomes
`round2`, and the in-place annotation performed by `rank_keywords` becomes an
explicit record update.  `KeywordScorer.__init__` can raise
`ZeroDivisionError` when the supplied weights sum to zero, so the constructor
is embedded as an `Option`-returning function (`none` models the raised
exception).
-/

/-- Result of `estimate_ranking_potential`: the dictionary literal returned at
the end of that method. -/
structure RankingPotential where
  difficulty_category : String
  difficulty_description : String
  opportunity_rating : String
  first_page_probability : ℝ
  recommendation : String

/-- A keyword record as threaded through the scorer: the metric keys the
scorer reads, each optional because a Python dict may lack it, plus the
derived keys the scorer writes (`opportunity_score`, `ranking_potential`,
`rank`). -/
structure KeywordRecord where
  estimated_volume : Option ℕ := none
  competition_score : Option ℤ := none
  relevance_score : Option ℝ := none
  first_page_probability : Option ℝ := none
  opportunity_score : Option ℝ := none
  ranking_potential : Option RankingPotential := none
  rank : Option ℕ := none

/-- SERP-analysis input of `calculate_keyword_difficulty`. -/
structure SerpAnalysis where
  big_brands_count : Option ℕ := none
  has_featured_snippet : Option Bool := none
  has_knowledge_graph : Option Bool := none
  has_ads : Option Bool := none
  total_results : Option ℕ := none

/-- The scorer object: the three weights stored by `KeywordScorer.__init__`. -/
structure KeywordScorer where
  volume_weight : ℝ
  competition_weight : ℝ
  relevance_weight : ℝ

/-- `KeywordScorer.__init__`: keep the supplied weights when their total is
within `0.01` of `1.0`, otherwise divide each by the total.  Python raises
`ZeroDivisionError` when that division is by `0.0`, modelled by `none`. -/
noncomputable def KeywordScorer.init (volume_weight competition_weight relevance_weight : ℝ) :
    Option KeywordScorer :=
  let total := volume_weight + competition_weight + relevance_weight
  if |total - 1.0| > 0.01 then
    if total = 0 then none
    else some ⟨volume_weight / total, competition_weight / total, relevance_weight / total⟩
  else
    some ⟨volume_weight, competition_weight, relevance_weight⟩

/-- Python's `round(x, 2)`: round to the nearest hundredth. -/
noncomputable def round2 (x : ℝ) : ℝ := ((round (x * 100) : ℤ) : ℝ) / 100

/-- `KeywordScorer.calculate_opportunity_score`: weighted sum of the
normalized volume (`min(sqrt(volume)/10, 100)`), inverted competition
(`100 - competition_score`) and rescaled relevance (`relevance * 100`),
rounded to two decimals.  Missing metrics default to 1000 / 50 / 0.5. -/
noncomputable def KeywordScorer.calculate_opportunity_score
    (self : KeywordScorer) (keyword_data : KeywordRecord) : ℝ :=
  let volume : ℕ := keyword_data.estimated_volume.getD 1000
  let competition : ℤ := keyword_data.competition_score.getD 50
  let relevance : ℝ := keyword_data.relevance_score.getD 0.5
  let volume_normalized : ℝ := min (Real.sqrt volume / 10) 100
  let competition_score : ℝ := 100 - (competition : ℝ)
  let relevance_score : ℝ := relevance * 100
  round2 (volume_normalized * self.volume_weight +
    competition_score * self.competition_weight +
    relevance_score * self.relevance_weight)

/-- `KeywordScorer.calculate_keyword_difficulty`: big-brand term
`min(big_brands * 8, 40)`, `10` per present SERP feature, a total-results
band worth up to `30`, capped at `100`. -/
def KeywordScorer.calculate_keyword_difficulty
    (_self : KeywordScorer) (serp_analysis : SerpAnalysis) : ℕ :=
  let big_brands := serp_analysis.big_brands_count.getD 0
  let d1 := min (big_brands * 8) 40
  let d2 := d1 + (if serp_analysis.has_featured_snippet.getD false then 10 else 0)
  let d3 := d2 + (if serp_analysis.has_knowledge_graph.getD false then 10 else 0)
  let d4 := d3 + (if serp_analysis.has_ads.getD false then 10 else 0)
  let total_results := serp_analysis.total_results.getD 0
  let d5 := d4 + (if total_results > 100000000 then 30
    else if total_results > 10000000 then 20
    else if total_results > 1000000 then 10
    else 0)
  min d5 100

/-- `KeywordScorer._generate_recommendation`: the six-rule first-match
chain. -/
noncomputable def KeywordScorer.recommendation_of
    (_self : KeywordScorer) (keyword_data : KeywordRecord) : String :=
  let competition : ℤ := keyword_data.competition_score.getD 50
  let volume : ℕ := keyword_data.estimated_volume.getD 1000
  let relevance : ℝ := keyword_data.relevance_score.getD 0.5
  let opportunity : ℝ := keyword_data.opportunity_score.getD 50
  if opportunity ≥ 70 ∧ competition < 40 then
    "🎯 High Priority: Low competition, good volume - target immediately"
  else if competition < 30 ∧ relevance > 0.7 then
    "✅ Quick Win: Easy to rank, highly relevant - great for content strategy"
  else if volume > 5000 ∧ competition > 70 then
    "⚠️ Long-term Target: High competition - requires authority building"
  else if competition < 30 ∧ volume < 500 then
    "💡 Niche Opportunity: Low volume but easy rank - good for specific audiences"
  else if 40 ≤ opportunity ∧ opportunity < 70 then
    "📊 Moderate Opportunity: Balanced metrics - include in content mix"
  else
    "⏸️ Low Priority: Better opportunities available - consider alternatives"

/-- `KeywordScorer.estimate_ranking_potential`: difficulty band from
`competition_score`, opportunity rating from `opportunity_score`
(default `50` when the record was never scored), plus the recommendation. -/
noncomputable def KeywordScorer.estimate_ranking_potential
    (self : KeywordScorer) (keyword_data : KeywordRecord) : RankingPotential :=
  let competition : ℤ := keyword_data.competition_score.getD 50
  let first_page_prob : ℝ := keyword_data.first_page_probability.getD 0.5
  let opportunity : ℝ := keyword_data.opportunity_score.getD 50
  let band : String × String :=
    if competition < 30 then ("Low", "Easy to rank with quality content")
    else if competition < 50 then ("Medium-Low", "Good opportunity with moderate effort")
    else if competition < 70 then ("Medium", "Requires strong content and backlinks")
    else if competition < 85 then ("Medium-High", "Challenging, needs authority and optimization")
    else ("High", "Very difficult, dominated by major brands")
  let opportunity_rating : String :=
    if opportunity ≥ 75 then "Excellent"
    else if opportunity ≥ 60 then "Good"
    else if opportunity ≥ 45 then "Fair"
    else "Poor"
  { difficulty_category := band.1
    difficulty_description := band.2
    opportunity_rating := opportunity_rating
    first_page_probability := first_page_prob
    recommendation := self.recommendation_of keyword_data }

/-- The loop body of `rank_keywords`: store the opportunity score on the
record, then store the ranking potential computed from the record that
already carries that score. -/
noncomputable def KeywordScorer.annotate
    (self : KeywordScorer) (kw_data : KeywordRecord) : KeywordRecord :=
  let kw1 := { kw_data with opportunity_score := some (self.calculate_opportunity_score kw_data) }
  { kw1 with ranking_potential := some (self.estimate_ranking_potential kw1) }

/-- Comparison used by `sorted(..., key=lambda x: x['opportunity_score'],
reverse=True)`: a sorts before (or with) b when b's score is at most a's.
A stable sort under this relation is exactly Python's stable descending
sort. -/
noncomputable def descLE (a b : KeywordRecord) : Bool :=
  decide (b.opportunity_score.getD 0 ≤ a.opportunity_score.getD 0)

/-- `KeywordScorer.rank_keywords`: annotate every record of the pool,
stable-sort descending by opportunity score, truncate to `top_n`, and give
the kept records 1-based ranks. -/
noncomputable def KeywordScorer.rank_keywords
    (self : KeywordScorer) (keywords_data : List KeywordRecord) (top_n : ℕ) :
    List KeywordRecord :=
  let scored := keywords_data.map self.annotate
  let sorted_keywords := scored.mergeSort descLE
  ((sorted_keywords.take top_n).enum).map (fun p => { p.2 with rank := some (p.1 + 1) })

/-- Erase the `rank` field, for comparing ranked output records with
pre-ranking pool records. -/
def stripRank (kd : KeywordRecord) : KeywordRecord := { kd with rank := none }

/-- `round2` sends a real in `[k - 1/2, k + 1/2)` hundredths to `k` hundredths. -/
theorem round2_eq_hundredths (x : ℝ) (k : ℤ) (h1 : (k : ℝ) - 1 / 2 ≤ x * 100)
    (h2 : x * 100 < (k : ℝ) + 1 / 2) : round2 x = (k : ℝ) / 100 := by
  unfold round2
  have hk : round (x * 100) = k := by
    rw [round_eq, Int.floor_eq_iff]
    constructor <;> [linarith; linarith]
  rw [hk]

/-- `round2` is monotone. -/
theorem round2_le_round2 {x y : ℝ} (h : x ≤ y) : round2 x ≤ round2 y := by
  unfold round2
  have hr : round (x * 100) ≤ round (y * 100) := by
    rw [round_eq, round_eq]
    exact Int.floor_mono (by linarith)
  have hc : ((round (x * 100) : ℤ) : ℝ) ≤ ((round (y * 100) : ℤ) : ℝ) := by exact_mod_cast hr
  linarith

/-- `round2` maps `[0, 100]` into `[0, 100]`. -/
theorem round2_bounds {x : ℝ} (h0 : 0 ≤ x) (h1 : x ≤ 100) :
    0 ≤ round2 x ∧ round2 x ≤ 100 := by
  have e0 : round2 0 = 0 := by unfold round2; norm_num
  have e1 : round2 (100 : ℝ) = 100 := by
    unfold round2
    have h : (100 : ℝ) * 100 = ((10000 : ℤ) : ℝ) := by norm_num
    rw [h, round_intCast]
    norm_num
  constructor
  · have := round2_le_round2 h0
    rw [e0] at this
    exact this
  · have := round2_le_round2 h1
    rw [e1] at this
    exact this

/-- When two reals are at least one hundredth apart, `round2` keeps them
strictly ordered. -/
theorem round2_lt_round2 {x y : ℝ} (h : x + 1 / 100 ≤ y) : round2 x < round2 y := by
  unfold round2
  have h1 : round (x * 100) ≤ round (y * 100 - 1) := by
    rw [round_eq, round_eq]
    exact Int.floor_mono (by linarith)
  have h2 : round (y * 100 - 1) = round (y * 100) - 1 := by
    have he : y * 100 - 1 = y * 100 - ((1 : ℤ) : ℝ) := by norm_num
    rw [he, round_sub_int]
  have hr : round (x * 100) < round (y * 100) := by omega
  have hc : ((round (x * 100) : ℤ) : ℝ) < ((round (y * 100) : ℤ) : ℝ) := by exact_mod_cast hr
  linarith

/-- C7: the concrete record (volume 2400, competition 22, relevance 0.92)
under weights 0.4/0.4/0.2 scores 51.56, and with that score attached the
ranking potential is difficulty "Low", rating "Fair", recommendation
"Quick Win" (rule 2). -/
theorem C7_concrete_scenario :
    KeywordScorer.calculate_opportunity_score ⟨0.4, 0.4, 0.2⟩
      { estimated_volume := some 2400, competition_score := some 22,
        relevance_score := some 0.92 } = 51.56 ∧
    (KeywordScorer.estimate_ranking_potential ⟨0.4, 0.4, 0.2⟩
      { estimated_volume := some 2400, competition_score := some 22,
        relevance_score := some 0.92,
        opportunity_score := some 51.56 }).difficulty_category = "Low" ∧
    (KeywordScorer.estimate_ranking_potential ⟨0.4, 0.4, 0.2⟩
      { estimated_volume := some 2400, competition_score := some 22,
        relevance_score := some 0.92,
        opportunity_score := some 51.56 }).opportunity_rating = "Fair" ∧
    (KeywordScorer.estimate_ranking_potential ⟨0.4, 0.4, 0.2⟩
      { estimated_volume := some 2400, competition_score := some 22,
        relevance_score := some 0.92,
        opportunity_score := some 51.56 }).recommendation =
      "✅ Quick Win: Easy to rank, highly relevant - great for content strategy" := by
  have hs1 : Real.sqrt 2400 < 49 := by
    rw [Real.sqrt_lt' (by norm_num)]
    norm_num
  have hs0 : (48.9 : ℝ) < Real.sqrt 2400 := by
    rw [Real.lt_sqrt (by norm_num)]
    norm_num
  refine ⟨?_, ?_, ?_, ?_⟩
  · unfold KeywordScorer.calculate_opportunity_score
    simp only [Option.getD_some]
    have hmin : min (Real.sqrt ((2400 : ℕ) : ℝ) / 10) 100 = Real.sqrt 2400 / 10 := by
      norm_num
      linarith
    rw [hmin]
    have h : round2 (Real.sqrt 2400 / 10 * 0.4 + (100 - ((22 : ℤ) : ℝ)) * 0.4 +
        0.92 * 100 * 0.2) = ((5156 : ℤ) : ℝ) / 100 := by
      apply round2_eq_hundredths
      · push_cast
        nlinarith
      · push_cast
        nlinarith
    rw [h]
    norm_num
  · unfold KeywordScorer.estimate_ranking_potential
    norm_num
  · unfold KeywordScorer.estimate_ranking_potential
    norm_num
  · unfold KeywordScorer.estimate_ranking_potential KeywordScorer.recommendation_of
    norm_num

/-- C8: a record with no metric fields scores without error using the
defaults volume 1000, competition 50, relevance 0.5, giving 31.26, which is
rated "Poor"; in general every missing raw metric is replaced by its default
during scoring. -/
theorem C8_empty_record_defaults :
    KeywordScorer.calculate_opportunity_score ⟨0.4, 0.4, 0.2⟩ {} = 31.26 ∧
    (KeywordScorer.estimate_ranking_potential ⟨0.4, 0.4, 0.2⟩
      { opportunity_score := some 31.26 }).opportunity_rating = "Poor" ∧
    ∀ (self : KeywordScorer) (kd : KeywordRecord),
      self.calculate_opportunity_score kd =
        self.calculate_opportunity_score
          { kd with estimated_volume := some (kd.estimated_volume.getD 1000),
                    competition_score := some (kd.competition_score.getD 50),
                    relevance_score := some (kd.relevance_score.getD 0.5) } := by
  have hs1 : Real.sqrt 1000 < 31.624 := by
    rw [Real.sqrt_lt' (by norm_num)]
    norm_num
  have hs0 : (31.6 : ℝ) < Real.sqrt 1000 := by
    rw [Real.lt_sqrt (by norm_num)]
    norm_num
  refine ⟨?_, ?_, ?_⟩
  · unfold KeywordScorer.calculate_opportunity_score
    simp only [Option.getD_none]
    have hmin : min (Real.sqrt ((1000 : ℕ) : ℝ) / 10) 100 = Real.sqrt 1000 / 10 := by
      norm_num
      linarith
    rw [hmin]
    have h : round2 (Real.sqrt 1000 / 10 * 0.4 + (100 - ((50 : ℤ) : ℝ)) * 0.4 +
        0.5 * 100 * 0.2) = ((3126 : ℤ) : ℝ) / 100 := by
      apply round2_eq_hundredths
      · push_cast
        nlinarith
      · push_cast
        nlinarith
    rw [h]
    norm_num
  · unfold KeywordScorer.estimate_ranking_potential
    norm_num
  · intro self kd
    unfold KeywordScorer.calculate_opportunity_score
    cases kd.estimated_volume <;> cases kd.competition_score <;>
      cases kd.relevance_score <;> rfl

/-- C3 (amended): for non-negative weights with positive sum, construction
succeeds, the stored weights sum to 1.0 within the 0.01 tolerance, weights
already within tolerance are kept as supplied, and otherwise each weight is
divided by the actual sum, making the new sum exactly 1. -/
theorem C3_weights_sum_invariant (v c r : ℝ) (hv : 0 ≤ v) (hc : 0 ≤ c) (hr : 0 ≤ r)
    (hpos : 0 < v + c + r) :
    ∃ w : KeywordScorer, KeywordScorer.init v c r = some w ∧
      |w.volume_weight + w.competition_weight + w.relevance_weight - 1| ≤ 0.01 ∧
      (|v + c + r - 1| ≤ 0.01 → w = ⟨v, c, r⟩) ∧
      (0.01 < |v + c + r - 1| →
        w = ⟨v / (v + c + r), c / (v + c + r), r / (v + c + r)⟩ ∧
        w.volume_weight + w.competition_weight + w.relevance_weight = 1) := by
  have hne : v + c + r ≠ 0 := ne_of_gt hpos
  have h10 : (1.0 : ℝ) = 1 := by norm_num
  simp only [KeywordScorer.init]
  by_cases h1 : |v + c + r - 1.0| > 0.01
  · rw [if_pos h1, if_neg hne]
    have hs : v / (v + c + r) + c / (v + c + r) + r / (v + c + r) = 1 := by
      field_simp
    refine ⟨_, rfl, ?_, ?_, fun _ => ⟨rfl, hs⟩⟩
    · simp only [hs]
      norm_num
    · intro h3
      exfalso
      rw [h10] at h1
      linarith
  · rw [if_neg h1]
    rw [h10] at h1
    push_neg at h1
    exact ⟨_, rfl, h1, fun _ => rfl, fun h3 => absurd h3 (not_lt.mpr h1)⟩

/-- C3 witness: at the default weights 0.4/0.4/0.2 the constructed scorer
keeps them and they sum to 1 within tolerance. -/
theorem C3_weights_sum_invariant_witness :
    ∃ w : KeywordScorer, KeywordScorer.init 0.4 0.4 0.2 = some w ∧
      |w.volume_weight + w.competition_weight + w.relevance_weight - 1| ≤ 0.01 ∧
      (|(0.4 : ℝ) + 0.4 + 0.2 - 1| ≤ 0.01 → w = ⟨0.4, 0.4, 0.2⟩) ∧
      (0.01 < |(0.4 : ℝ) + 0.4 + 0.2 - 1| →
        w = ⟨0.4 / (0.4 + 0.4 + 0.2), 0.4 / (0.4 + 0.4 + 0.2), 0.2 / (0.4 + 0.4 + 0.2)⟩ ∧
        w.volume_weight + w.competition_weight + w.relevance_weight = 1) :=
  C3_weights_sum_invariant 0.4 0.4 0.2 (by norm_num) (by norm_num) (by norm_num) (by norm_num)

/-- C3 counterexample: at the all-zero non-negative weight triple the
constructor does not produce a scorer at all (Python raises
`ZeroDivisionError`), so no constructed weights sum to 1.0 within
tolerance. -/
theorem C3_counterexample_all_zero_weights :
    ¬ ∃ w : KeywordScorer, KeywordScorer.init 0 0 0 = some w ∧
      |w.volume_weight + w.competition_weight + w.relevance_weight - 1| ≤ 0.01 := by
  rintro ⟨w, hw, -⟩
  have hz : KeywordScorer.init 0 0 0 = none := by
    simp only [KeywordScorer.init]
    rw [if_pos (by norm_num), if_pos (by norm_num)]
  rw [hz] at hw
  exact Option.noConfusion hw

/-- C4 (amended): for non-negative weights that are not all zero, the
normalization branch divides by a non-zero total and construction never
fails. -/
theorem C4_construction_never_fails (v c r : ℝ) (hv : 0 ≤ v) (hc : 0 ≤ c) (hr : 0 ≤ r)
    (hpos : 0 < v + c + r) : (KeywordScorer.init v c r).isSome := by
  simp only [KeywordScorer.init]
  split_ifs with h1 h2
  · exact absurd h2 (ne_of_gt hpos)
  · rfl
  · rfl

/-- C4 witness: construction succeeds at the default weights 0.4/0.4/0.2. -/
theorem C4_construction_never_fails_witness : (KeywordScorer.init 0.4 0.4 0.2).isSome :=
  C4_construction_never_fails 0.4 0.4 0.2 (by norm_num) (by norm_num) (by norm_num)
    (by norm_num)

/-- C4 counterexample: at the all-zero non-negative weight triple the guard
`|total - 1.0| > 0.01` holds and the divisor `total` is zero, so the
construction fails (Python raises `ZeroDivisionError`). -/
theorem C4_counterexample_all_zero_weights : KeywordScorer.init 0 0 0 = none := by
  simp only [KeywordScorer.init]
  rw [if_pos (by norm_num), if_pos (by norm_num)]

/-- C1: for records whose present metrics satisfy the data-model
preconditions and weights that are non-negative and sum to 1, the
opportunity score lies in [0, 100], and it depends only on the record's
three raw metrics and the weights. -/
theorem C1_score_in_range_and_pure (self : KeywordScorer) (kd : KeywordRecord)
    (hwv : 0 ≤ self.volume_weight) (hwc : 0 ≤ self.competition_weight)
    (hwr : 0 ≤ self.relevance_weight)
    (hsum : self.volume_weight + self.competition_weight + self.relevance_weight = 1)
    (hc0 : 0 ≤ kd.competition_score.getD 50) (hc1 : kd.competition_score.getD 50 ≤ 100)
    (hr0 : 0 ≤ kd.relevance_score.getD 0.5) (hr1 : kd.relevance_score.getD 0.5 ≤ 1) :
    (0 ≤ self.calculate_opportunity_score kd ∧
      self.calculate_opportunity_score kd ≤ 100) ∧
    ∀ kd2 : KeywordRecord, kd2.estimated_volume = kd.estimated_volume →
      kd2.competition_score = kd.competition_score →
      kd2.relevance_score = kd.relevance_score →
      self.calculate_opportunity_score kd2 = self.calculate_opportunity_score kd := by
  constructor
  · simp only [KeywordScorer.calculate_opportunity_score]
    set vn : ℝ := min (Real.sqrt ((kd.estimated_volume.getD 1000 : ℕ) : ℝ) / 10) 100 with hvn
    have hvn0 : 0 ≤ vn := le_min (by positivity) (by norm_num)
    have hvn1 : vn ≤ 100 := min_le_right _ _
    set cr : ℝ := ((kd.competition_score.getD 50 : ℤ) : ℝ) with hcr
    have hcr0 : (0 : ℝ) ≤ cr := by rw [hcr]; exact_mod_cast hc0
    have hcr1 : cr ≤ 100 := by rw [hcr]; exact_mod_cast hc1
    set rr : ℝ := kd.relevance_score.getD 0.5 with hrr
    apply round2_bounds
    · have b1 : 0 ≤ vn * self.volume_weight := mul_nonneg hvn0 hwv
      have b2 : 0 ≤ (100 - cr) * self.competition_weight := by
        apply mul_nonneg (by linarith) hwc
      have b3 : 0 ≤ rr * 100 * self.relevance_weight := by
        apply mul_nonneg (by nlinarith) hwr
      linarith
    · have b1 : vn * self.volume_weight ≤ 100 * self.volume_weight :=
        mul_le_mul_of_nonneg_right hvn1 hwv
      have b2 : (100 - cr) * self.competition_weight ≤ 100 * self.competition_weight :=
        mul_le_mul_of_nonneg_right (by linarith) hwc
      have b3 : rr * 100 * self.relevance_weight ≤ 100 * self.relevance_weight :=
        mul_le_mul_of_nonneg_right (by nlinarith) hwr
      nlinarith
  · intro kd2 h1 h2 h3
    simp only [KeywordScorer.calculate_opportunity_score, h1, h2, h3]

/-- C1 witness: with the default weights and the concrete record
(volume 2400, competition 22, relevance 0.92) the score is in range and is a
function of the three raw metrics alone. -/
theorem C1_score_in_range_and_pure_witness :
    (0 ≤ KeywordScorer.calculate_opportunity_score ⟨0.4, 0.4, 0.2⟩
        { estimated_volume := some 2400, competition_score := some 22,
          relevance_score := some 0.92 } ∧
      KeywordScorer.calculate_opportunity_score ⟨0.4, 0.4, 0.2⟩
        { estimated_volume := some 2400, competition_score := some 22,
          relevance_score := some 0.92 } ≤ 100) ∧
    ∀ kd2 : KeywordRecord,
      kd2.estimated_volume = some 2400 →
      kd2.competition_score = some 22 →
      kd2.relevance_score = some 0.92 →
      KeywordScorer.calculate_opportunity_score ⟨0.4, 0.4, 0.2⟩ kd2 =
        KeywordScorer.calculate_opportunity_score ⟨0.4, 0.4, 0.2⟩
          { estimated_volume := some 2400, competition_score := some 22,
            relevance_score := some 0.92 } :=
  C1_score_in_range_and_pure ⟨0.4, 0.4, 0.2⟩
    { estimated_volume := some 2400, competition_score := some 22,
      relevance_score := some 0.92 }
    (by norm_num) (by norm_num) (by norm_num) (by norm_num)
    (by norm_num) (by norm_num) (by norm_num) (by norm_num)

/-- C6 (amended): holding volume and relevance fixed, increasing the integer
competition score strictly decreases the opportunity score, provided the
competition weight is at least 0.01 (so that the decrease survives the
two-decimal rounding). -/
theorem C6_competition_strictly_decreases (self : KeywordScorer) (kd : KeywordRecord)
    (c1 c2 : ℤ)
    (hwv : 0 ≤ self.volume_weight) (hwr : 0 ≤ self.relevance_weight)
    (hwc : 1 / 100 ≤ self.competition_weight)
    (hsum : self.volume_weight + self.competition_weight + self.relevance_weight = 1)
    (h0 : 0 ≤ c1) (h1 : c2 ≤ 100) (hlt : c1 < c2) :
    self.calculate_opportunity_score { kd with competition_score := some c2 } <
      self.calculate_opportunity_score { kd with competition_score := some c1 } := by
  simp only [KeywordScorer.calculate_opportunity_score, Option.getD_some]
  apply round2_lt_round2
  have hd : (c1 : ℝ) + 1 ≤ (c2 : ℝ) := by exact_mod_cast hlt
  have h0R : (0 : ℝ) ≤ (c1 : ℝ) := by exact_mod_cast h0
  nlinarith [mul_le_mul hwc hd (by linarith) (by linarith)]

/-- C6 witness: with the default weights, raising competition from 22 to 23
on the concrete record strictly lowers the score. -/
theorem C6_competition_strictly_decreases_witness :
    KeywordScorer.calculate_opportunity_score ⟨0.4, 0.4, 0.2⟩
      { estimated_volume := some 2400, relevance_score := some 0.92,
        competition_score := some 23 } <
    KeywordScorer.calculate_opportunity_score ⟨0.4, 0.4, 0.2⟩
      { estimated_volume := some 2400, relevance_score := some 0.92,
        competition_score := some 22 } :=
  C6_competition_strictly_decreases ⟨0.4, 0.4, 0.2⟩
    { estimated_volume := some 2400, relevance_score := some 0.92 } 22 23
    (by norm_num) (by norm_num) (by norm_num) (by norm_num)
    (by norm_num) (by norm_num) (by norm_num)

/-- C6 counterexample: the claim fails for the non-negative weight triple
(0.5, 0, 0.5), which sums to 1: raising competition from 0 to 100 leaves the
score unchanged, so the decrease is not strict. -/
theorem C6_counterexample_zero_competition_weight :
    ¬ (KeywordScorer.calculate_opportunity_score ⟨0.5, 0, 0.5⟩
         { competition_score := some 100 } <
       KeywordScorer.calculate_opportunity_score ⟨0.5, 0, 0.5⟩
         { competition_score := some 0 }) := by
  have he : KeywordScorer.calculate_opportunity_score ⟨0.5, 0, 0.5⟩
        { competition_score := some 100 } =
      KeywordScorer.calculate_opportunity_score ⟨0.5, 0, 0.5⟩
        { competition_score := some 0 } := by
    simp only [KeywordScorer.calculate_opportunity_score, Option.getD_some]
    congr 1
    push_cast
    ring
  rw [he]
  exact lt_irrefl _

/-- C10: a record with no opportunity_score field is classified without
error and without recomputing the score: the default 50 is used, so the
rating is always "Fair" and the recommendation is the rule chain evaluated
at opportunity 50. -/
theorem C10_missing_opportunity_score_defaults (self : KeywordScorer) (kd : KeywordRecord)
    (h : kd.opportunity_score = none) :
    (self.estimate_ranking_potential kd).opportunity_rating = "Fair" ∧
    (self.estimate_ranking_potential kd).recommendation = self.recommendation_of kd ∧
    self.recommendation_of kd =
      self.recommendation_of { kd with opportunity_score := some 50 } := by
  refine ⟨?_, ?_, ?_⟩
  · simp only [KeywordScorer.estimate_ranking_potential, h, Option.getD_none]
    norm_num
  · simp only [KeywordScorer.estimate_ranking_potential]
  · simp only [KeywordScorer.recommendation_of, h, Option.getD_none, Option.getD_some]

/-- C10 witness: a record with strong raw metrics but no opportunity_score
is rated "Fair" and its recommendation equals the rule chain run with
opportunity 50. -/
theorem C10_missing_opportunity_score_defaults_witness :
    (KeywordScorer.estimate_ranking_potential ⟨0.4, 0.4, 0.2⟩
      { estimated_volume := some 99999, competition_score := some 2,
        relevance_score := some 0.99 }).opportunity_rating = "Fair" ∧
    (KeywordScorer.estimate_ranking_potential ⟨0.4, 0.4, 0.2⟩
      { estimated_volume := some 99999, competition_score := some 2,
        relevance_score := some 0.99 }).recommendation =
      KeywordScorer.recommendation_of ⟨0.4, 0.4, 0.2⟩
        { estimated_volume := some 99999, competition_score := some 2,
          relevance_score := some 0.99 } ∧
    KeywordScorer.recommendation_of ⟨0.4, 0.4, 0.2⟩
      { estimated_volume := some 99999, competition_score := some 2,
        relevance_score := some 0.99 } =
      KeywordScorer.recommendation_of ⟨0.4, 0.4, 0.2⟩
        { estimated_volume := some 99999, competition_score := some 2,
          relevance_score := some 0.99, opportunity_score := some 50 } :=
  C10_missing_opportunity_score_defaults ⟨0.4, 0.4, 0.2⟩
    { estimated_volume := some 99999, competition_score := some 2,
      relevance_score := some 0.99 } rfl

/-- C5: the recommendation is decided by the first matching rule of the
six-rule chain, in order: High Priority, Quick Win, Long-term Target, Niche
Opportunity, Moderate Opportunity, Low Priority; in particular a record
satisfying both rule 2 and rule 5 gets "Quick Win". -/
theorem C5_rule_priority_chain (self : KeywordScorer) (kd : KeywordRecord) :
    ((kd.opportunity_score.getD 50 ≥ 70 ∧ kd.competition_score.getD 50 < 40) →
      self.recommendation_of kd =
        "🎯 High Priority: Low competition, good volume - target immediately") ∧
    (¬(kd.opportunity_score.getD 50 ≥ 70 ∧ kd.competition_score.getD 50 < 40) →
      (kd.competition_score.getD 50 < 30 ∧ kd.relevance_score.getD 0.5 > 0.7) →
      self.recommendation_of kd =
        "✅ Quick Win: Easy to rank, highly relevant - great for content strategy") ∧
    (¬(kd.opportunity_score.getD 50 ≥ 70 ∧ kd.competition_score.getD 50 < 40) →
      ¬(kd.competition_score.getD 50 < 30 ∧ kd.relevance_score.getD 0.5 > 0.7) →
      (kd.estimated_volume.getD 1000 > 5000 ∧ kd.competition_score.getD 50 > 70) →
      self.recommendation_of kd =
        "⚠️ Long-term Target: High competition - requires authority building") ∧
    (¬(kd.opportunity_score.getD 50 ≥ 70 ∧ kd.competition_score.getD 50 < 40) →
      ¬(kd.competition_score.getD 50 < 30 ∧ kd.relevance_score.getD 0.5 > 0.7) →
      ¬(kd.estimated_volume.getD 1000 > 5000 ∧ kd.competition_score.getD 50 > 70) →
      (kd.competition_score.getD 50 < 30 ∧ kd.estimated_volume.getD 1000 < 500) →
      self.recommendation_of kd =
        "💡 Niche Opportunity: Low volume but easy rank - good for specific audiences") ∧
    (¬(kd.opportunity_score.getD 50 ≥ 70 ∧ kd.competition_score.getD 50 < 40) →
      ¬(kd.competition_score.getD 50 < 30 ∧ kd.relevance_score.getD 0.5 > 0.7) →
      ¬(kd.estimated_volume.getD 1000 > 5000 ∧ kd.competition_score.getD 50 > 70) →
      ¬(kd.competition_score.getD 50 < 30 ∧ kd.estimated_volume.getD 1000 < 500) →
      (40 ≤ kd.opportunity_score.getD 50 ∧ kd.opportunity_score.getD 50 < 70) →
      self.recommendation_of kd =
        "📊 Moderate Opportunity: Balanced metrics - include in content mix") ∧
    (¬(kd.opportunity_score.getD 50 ≥ 70 ∧ kd.competition_score.getD 50 < 40) →
      ¬(kd.competition_score.getD 50 < 30 ∧ kd.relevance_score.getD 0.5 > 0.7) →
      ¬(kd.estimated_volume.getD 1000 > 5000 ∧ kd.competition_score.getD 50 > 70) →
      ¬(kd.competition_score.getD 50 < 30 ∧ kd.estimated_volume.getD 1000 < 500) →
      ¬(40 ≤ kd.opportunity_score.getD 50 ∧ kd.opportunity_score.getD 50 < 70) →
      self.recommendation_of kd =
        "⏸️ Low Priority: Better opportunities available - consider alternatives") ∧
    ((kd.competition_score.getD 50 < 30 ∧ kd.relevance_score.getD 0.5 > 0.7) →
      (40 ≤ kd.opportunity_score.getD 50 ∧ kd.opportunity_score.getD 50 < 70) →
      self.recommendation_of kd =
        "✅ Quick Win: Easy to rank, highly relevant - great for content strategy") := by
  simp only [KeywordScorer.recommendation_of]
  refine ⟨?_, ?_, ?_, ?_, ?_, ?_, ?_⟩
  · intro h1
    rw [if_pos h1]
  · intro n1 h2
    rw [if_neg n1, if_pos h2]
  · intro n1 n2 h3
    rw [if_neg n1, if_neg n2, if_pos h3]
  · intro n1 n2 n3 h4
    rw [if_neg n1, if_neg n2, if_neg n3, if_pos h4]
  · intro n1 n2 n3 n4 h5
    rw [if_neg n1, if_neg n2, if_neg n3, if_neg n4, if_pos h5]
  · intro n1 n2 n3 n4 n5
    rw [if_neg n1, if_neg n2, if_neg n3, if_neg n4, if_neg n5]
  · intro h2 h5
    have n1 : ¬(kd.opportunity_score.getD 50 ≥ 70 ∧ kd.competition_score.getD 50 < 40) :=
      fun hc => absurd hc.1 (not_le.mpr h5.2)
    rw [if_neg n1, if_pos h2]

/-- C5 witness: the concrete record satisfying both rule 2 (competition 22,
relevance 0.92) and rule 5 (opportunity 51.56) gets the rule-2 "Quick Win"
recommendation. -/
theorem C5_rule_priority_chain_witness :
    KeywordScorer.recommendation_of ⟨0.4, 0.4, 0.2⟩
      { estimated_volume := some 2400, competition_score := some 22,
        relevance_score := some 0.92, opportunity_score := some 51.56 } =
      "✅ Quick Win: Easy to rank, highly relevant - great for content strategy" := by
  have h := C5_rule_priority_chain ⟨0.4, 0.4, 0.2⟩
    { estimated_volume := some 2400, competition_score := some 22,
      relevance_score := some 0.92, opportunity_score := some 51.56 }
  exact h.2.2.2.2.2.2 (by constructor <;> norm_num) (by constructor <;> norm_num)

/-- C2: `rank_keywords` annotates every record of the pool with its
opportunity score and ranking potential, stable-sorts the annotated pool in
non-increasing opportunity-score order, truncates to `min top_n pool_size`
records, and assigns ranks 1..that count with no gaps; records with equal
score keep their relative input order. -/
theorem C2_rank_keywords_contract (self : KeywordScorer)
    (keywords_data : List KeywordRecord) (top_n : ℕ) :
    (self.rank_keywords keywords_data top_n).length = min top_n keywords_data.length ∧
    (self.rank_keywords keywords_data top_n).map stripRank =
      (((keywords_data.map self.annotate).mergeSort descLE).take top_n).map stripRank ∧
    (self.rank_keywords keywords_data top_n).map (fun kd => kd.rank) =
      (List.range (min top_n keywords_data.length)).map (fun i => some (i + 1)) ∧
    List.Perm ((keywords_data.map self.annotate).mergeSort descLE)
      (keywords_data.map self.annotate) ∧
    ((keywords_data.map self.annotate).mergeSort descLE).Pairwise
      (fun a b => b.opportunity_score.getD 0 ≤ a.opportunity_score.getD 0) ∧
    ∀ s : ℝ,
      ((keywords_data.map self.annotate).mergeSort descLE).filter
          (fun kd => decide (kd.opportunity_score.getD 0 = s)) =
        (keywords_data.map self.annotate).filter
          (fun kd => decide (kd.opportunity_score.getD 0 = s)) := by
  have htrans : ∀ a b c : KeywordRecord,
      descLE a b = true → descLE b c = true → descLE a c = true := by
    intro a b c hab hbc
    simp only [descLE, decide_eq_true_eq] at hab hbc ⊢
    exact le_trans hbc hab
  have htotal : ∀ a b : KeywordRecord, (descLE a b || descLE b a) = true := by
    intro a b
    simp only [descLE, Bool.or_eq_true, decide_eq_true_eq]
    exact le_total _ _
  refine ⟨?_, ?_, ?_, List.mergeSort_perm _ _, ?_, ?_⟩
  · simp only [KeywordScorer.rank_keywords]
    rw [List.length_map, List.enum_length, List.length_take, List.length_mergeSort,
      List.length_map]
  · simp only [KeywordScorer.rank_keywords]
    rw [List.map_map]
    have h1 : (stripRank ∘ fun p : ℕ × KeywordRecord => { p.2 with rank := some (p.1 + 1) }) =
        (stripRank ∘ Prod.snd) := funext fun p => rfl
    rw [h1, ← List.map_map, List.enum_map_snd]
  · simp only [KeywordScorer.rank_keywords]
    rw [List.map_map]
    have h1 : ((fun kd : KeywordRecord => kd.rank) ∘
        fun p : ℕ × KeywordRecord => { p.2 with rank := some (p.1 + 1) }) =
        ((fun i => some (i + 1)) ∘ Prod.fst) := funext fun p => rfl
    rw [h1, ← List.map_map, List.enum_map_fst]
    rw [List.length_take, List.length_mergeSort, List.length_map]
  · exact (List.sorted_mergeSort htrans htotal _).imp fun h => of_decide_eq_true h
  · intro s
    have hpw : ((keywords_data.map self.annotate).filter
        (fun kd => decide (kd.opportunity_score.getD 0 = s))).Pairwise
        (fun a b => descLE a b = true) := by
      apply List.pairwise_of_forall_mem_list
      intro a ha b hb
      rw [List.mem_filter] at ha hb
      have ea : a.opportunity_score.getD 0 = s := of_decide_eq_true ha.2
      have eb : b.opportunity_score.getD 0 = s := of_decide_eq_true hb.2
      simp only [descLE, decide_eq_true_eq, ea, eb]
      exact le_refl s
    have hsub : List.Sublist
        ((keywords_data.map self.annotate).filter
          (fun kd => decide (kd.opportunity_score.getD 0 = s)))
        ((keywords_data.map self.annotate).mergeSort descLE) :=
      List.sublist_mergeSort htrans htotal hpw (List.filter_sublist _)
    have hperm : List.Perm
        (((keywords_data.map self.annotate).mergeSort descLE).filter
          (fun kd => decide (kd.opportunity_score.getD 0 = s)))
        ((keywords_data.map self.annotate).filter
          (fun kd => decide (kd.opportunity_score.getD 0 = s))) :=
      (List.mergeSort_perm _ descLE).filter _
    have hsub2 := hsub.filter (fun kd => decide (kd.opportunity_score.getD 0 = s))
    rw [List.filter_eq_self.mpr (fun a ha => (List.mem_filter.mp ha).2)] at hsub2
    exact (hsub2.eq_of_length hperm.length_eq.symm).symm

/-- C9: on a SERP analysis with 3 big brands, a featured snippet, a knowledge
graph, no ads key (or an explicit false one) and 200 000 000 total results,
`calculate_keyword_difficulty` returns exactly 74 = min(3*8,40) + 10 + 10 + 30. -/
theorem C9_keyword_difficulty_74 :
    KeywordScorer.calculate_keyword_difficulty ⟨0.4, 0.4, 0.2⟩
      { big_brands_count := some 3, has_featured_snippet := some true,
        has_knowledge_graph := some true, has_ads := none,
        total_results := some 200000000 } = 74 ∧
    KeywordScorer.calculate_keyword_difficulty ⟨0.4, 0.4, 0.2⟩
      { big_brands_count := some 3, has_featured_snippet := some true,
        has_knowledge_graph := some true, has_ads := some false,
        total_results := some 200000000 } = 74 := by
  constructor <;> rfl
